import Mathlib

/-
  Shallow embedding of the push-notification fan-out subsystem of
  recipes-api (src/src/services/push_notifications.ts), verified against
  its specification.

  External effects (Supabase queries, the OAuth token endpoint, the FCM
  send endpoint, RSA signing in node:crypto, pino logging) are modelled by
  an oracle `World` that fixes the response of every external call, and by
  an event trace recording which external calls the code issues and which
  log records it emits.  A thrown JavaScript exception that escapes a
  function is modelled by `Except.error`; since the TypeScript code never
  inspects the exception value, the error payload is `Unit`.
-/

deriving instance DecidableEq for Except

namespace RecipesApi

/-- The push message constructed per device token in
`notifyFollowersNewRecipe` (title/body shown to the user plus the `data`
payload, kept as an ordered field list so that "exactly three fields" is
expressible). -/
structure PushMessage where
  title : String
  body : String
  data : List (String × String)
deriving DecidableEq, Repr

/-- Observable external effects of one `notifyFollowersNewRecipe` round:
log records, the two Supabase store queries, calls to the OAuth token
endpoint, and FCM send attempts. -/
inductive Event where
  | logWarn (msg : String)
  | logError (msg : String)
  | queryFollowers (authorId : String)
  | queryTokens (userIds : List String)
  | tokenEndpointCall
  | fcmSend (token : String) (msg : PushMessage)
deriving DecidableEq, Repr

/-- A row of the `follows` table as selected by the code
(`select('follower_id')`).  The field is `Option String` so that a
null/absent value, which JavaScript `Boolean(id)` filters out, is
representable. -/
structure FollowRow where
  follower_id : Option String
deriving DecidableEq, Repr

/-- A row of the `push_tokens` table as selected by the code
(`select('device_token')`). -/
structure PushTokenRow where
  device_token : Option String
deriving DecidableEq, Repr

/-- A Supabase query response `{ data, error }`: on error the client sets
`data` to null; `data` may also be null without an error. -/
structure SupaResp (α : Type) where
  data : Option (List α)
  error : Bool

/-- Outcome of the POST to `https://oauth2.googleapis.com/token` as seen by
`getGoogleAccessToken`.  `transportError` covers both a rejected `fetch`
and a `response.json()` that throws on a malformed body (both land in the
same `catch`); `httpError` is `response.ok === false`; `success` is an ok
response whose parsed JSON may or may not carry `access_token` /
`expires_in`. -/
inductive TokenExchangeOutcome where
  | transportError
  | httpError
  | success (access_token : Option String) (expires_in : Option Int)
deriving DecidableEq, Repr

/-- Outcome of one FCM send POST in `sendFcmV1`: ok response, non-ok HTTP
status, or a thrown transport error. -/
inductive SendOutcome where
  | ok
  | httpError
  | transportError
deriving DecidableEq, Repr

/-- The module-level single-slot token cache `cachedAccessToken`
(`{ token, expiresAtMs }`); the slot itself is `Option CachedAccessToken`
matching the nullable module variable. -/
structure CachedAccessToken where
  token : String
  expiresAtMs : Int
deriving DecidableEq, Repr

/-- The `NotifyFollowersInput` argument of `notifyFollowersNewRecipe`. -/
structure NotifyInput where
  authorId : String
  authorName : String
  recipeId : String
  recipeTitle : String
deriving DecidableEq, Repr

/-- Oracle fixing the environment, the store responses, the clock, the
signing result and the network outcomes for one notification round.
`signResult` abstracts `createServiceAccountJwt`: node crypto RSA signing
either yields an assertion string or throws (malformed private key). -/
structure World where
  adminSupabaseConfigured : Bool
  firebaseProjectId : Option String
  firebaseClientEmail : Option String
  firebasePrivateKeyRaw : Option String
  followerResp : SupaResp FollowRow
  tokenResp : SupaResp PushTokenRow
  nowMs : Int
  signResult : Except Unit String
  exchange : TokenExchangeOutcome
  sendOutcomes : String → SendOutcome

/-- One step of `raw.replace(/\\n/g, '\n')`: a literal backslash-n pair
becomes a newline character, scanning left to right without overlap. -/
def replaceEscapedNewlinesAux : List Char → List Char
  | [] => []
  | '\\' :: 'n' :: rest => '\n' :: replaceEscapedNewlinesAux rest
  | c :: rest => c :: replaceEscapedNewlinesAux rest

/-- `firebasePrivateKeyRaw?.replace(/\\n/g, '\n')` on a present string. -/
def replaceEscapedNewlines (s : String) : String :=
  String.mk (replaceEscapedNewlinesAux s.data)

/-- JavaScript truthiness filter `filter((x): x is string => Boolean(x))`
on an optional string field: null/undefined and the empty string are
dropped. -/
def truthyStr : Option String → Option String
  | some s => if s = "" then none else some s
  | none => none

/-- JavaScript falsiness of an optional environment string: `!x` is true
for undefined and for the empty string. -/
def isFalsy : Option String → Bool
  | none => true
  | some s => s = ""

/-- `Array.from(new Set(xs))` for strings: first-occurrence order
preserving deduplication. -/
def jsSetDedup (l : List String) : List String :=
  l.foldl (fun acc t => if acc.contains t then acc else acc ++ [t]) []

/-- The cache-hit test of `getGoogleAccessToken`:
`cachedAccessToken && cachedAccessToken.expiresAtMs - 60_000 > now`. -/
def isCacheHit (nowMs : Int) : Option CachedAccessToken → Bool
  | none => false
  | some c => decide (c.expiresAtMs - 60000 > nowMs)

/-- Result of `getGoogleAccessToken`: the returned value (or a propagated
exception), the cache slot after the call, and the trace of external
effects it produced. -/
structure TokenResult where
  outcome : Except Unit (Option String)
  cache : Option CachedAccessToken
  events : List Event
deriving DecidableEq, Repr

/-- The refresh path of `getGoogleAccessToken` (everything after the
cache-hit early return).  `createServiceAccountJwt` is called OUTSIDE the
try block, so a signing throw propagates (`Except.error`); the try block
covers the fetch, the ok-check and the JSON parse. -/
def refreshAccessToken (nowMs : Int) (cache : Option CachedAccessToken)
    (signResult : Except Unit String) (exchange : TokenExchangeOutcome) :
    TokenResult :=
  match signResult with
  | Except.error e => { outcome := Except.error e, cache := cache, events := [] }
  | Except.ok _assertion =>
    match exchange with
    | TokenExchangeOutcome.transportError =>
        { outcome := Except.ok none, cache := cache,
          events := [Event.tokenEndpointCall,
                     Event.logError "Unexpected error requesting Google OAuth token"] }
    | TokenExchangeOutcome.httpError =>
        { outcome := Except.ok none, cache := cache,
          events := [Event.tokenEndpointCall,
                     Event.logWarn "Failed to obtain Google OAuth access token for FCM"] }
    | TokenExchangeOutcome.success accessToken expiresIn =>
      match accessToken with
      | none =>
          { outcome := Except.ok none, cache := cache,
            events := [Event.tokenEndpointCall,
                       Event.logWarn "Google OAuth token response did not include access_token"] }
      | some tok =>
          { outcome := Except.ok (some tok),
            cache := some { token := tok,
                            expiresAtMs := nowMs + (expiresIn.getD 3600) * 1000 },
            events := [Event.tokenEndpointCall] }

/-- `getGoogleAccessToken`: serve from the cache when
`cachedAccessToken.expiresAtMs - 60_000 > now`, otherwise refresh. -/
def getGoogleAccessToken (nowMs : Int) (cache : Option CachedAccessToken)
    (signResult : Except Unit String) (exchange : TokenExchangeOutcome) :
    TokenResult :=
  match cache with
  | some c =>
    if c.expiresAtMs - 60000 > nowMs then
      { outcome := Except.ok (some c.token), cache := some c, events := [] }
    else
      refreshAccessToken nowMs (some c) signResult exchange
  | none => refreshAccessToken nowMs none signResult exchange

/-- Result of `sendFcmV1`: the whole body is wrapped in try/catch, so the
outcome is the function returning normally or throwing, plus its trace. -/
structure SendResult where
  outcome : Except Unit Unit
  events : List Event
deriving DecidableEq, Repr

/-- `sendFcmV1`: issue the send POST; a non-ok status is logged as a
warning, a thrown transport error is caught and logged as an error; the
function itself always returns normally. -/
def sendFcmV1 (o : SendOutcome) (token : String) (msg : PushMessage) :
    SendResult :=
  match o with
  | SendOutcome.ok =>
      { outcome := Except.ok (), events := [Event.fcmSend token msg] }
  | SendOutcome.httpError =>
      { outcome := Except.ok (),
        events := [Event.fcmSend token msg, Event.logWarn "FCM send failed"] }
  | SendOutcome.transportError =>
      { outcome := Except.ok (),
        events := [Event.fcmSend token msg, Event.logError "Unexpected FCM send error"] }

/-- The push message built per device token at the dispatch site of
`notifyFollowersNewRecipe` (the title template in the source is the
Spanish string `Nueva receta de ${input.authorName}`). -/
def buildPushMessage (input : NotifyInput) : PushMessage :=
  { title := "Nueva receta de " ++ input.authorName,
    body := input.recipeTitle,
    data := [("type", "new_recipe"),
             ("recipe_id", input.recipeId),
             ("author_id", input.authorId)] }

/-- `followerRows?.map(row => row.follower_id).filter(Boolean)`: none when
the query data is null, otherwise the truthy follower ids. -/
def followerIdsOf (w : World) : Option (List String) :=
  w.followerResp.data.map
    (fun rows => (rows.map FollowRow.follower_id).filterMap truthyStr)

/-- `Array.from(new Set((tokenRows ?? []).map(r => r.device_token).filter(Boolean)))`:
the deduplicated truthy device tokens. -/
def resolvedTokens (w : World) : List String :=
  jsSetDedup
    (((w.tokenResp.data.getD []).map PushTokenRow.device_token).filterMap truthyStr)

/-- Trace of `Promise.all(tokens.map(token => sendFcmV1(token, ...)))`:
every token gets its own independent send attempt. -/
def dispatchAll (f : String → SendOutcome) (tokens : List String)
    (msg : PushMessage) : List Event :=
  tokens.flatMap (fun t => (sendFcmV1 (f t) t msg).events)

/-- The warning logged when `adminSupabase` is null. -/
def supabaseWarnMsg : String :=
  "SUPABASE_SERVICE_ROLE_KEY is not configured. Skipping follower push notifications."

/-- The warning logged when the Firebase environment triple is incomplete. -/
def firebaseWarnMsg : String :=
  "Missing FIREBASE_PROJECT_ID/FIREBASE_CLIENT_EMAIL/FIREBASE_PRIVATE_KEY. Skipping push notifications."

/-- Result of one `notifyFollowersNewRecipe` call: normal return or a
propagated exception, the token-cache slot afterwards, and the full trace. -/
structure NotifyResult where
  outcome : Except Unit Unit
  cache : Option CachedAccessToken
  events : List Event
deriving DecidableEq, Repr

/-- Continuation of `notifyFollowersNewRecipe` after the access-token
step: a propagated signing exception aborts the round (the caller sees the
throw), a null token returns silently, and a token triggers the fan-out. -/
def afterTokenStep (base : List Event) (f : String → SendOutcome)
    (tokens : List String) (msg : PushMessage) (tr : TokenResult) :
    NotifyResult :=
  match tr.outcome with
  | Except.error e =>
      { outcome := Except.error e, cache := tr.cache, events := base ++ tr.events }
  | Except.ok none =>
      { outcome := Except.ok (), cache := tr.cache, events := base ++ tr.events }
  | Except.ok (some _accessToken) =>
      { outcome := Except.ok (), cache := tr.cache,
        events := (base ++ tr.events) ++ dispatchAll f tokens msg }

/-- `notifyFollowersNewRecipe`, transcribed guard by guard: the
`adminSupabase` null check, the Firebase env check (on the private key
after `replace(/\\n/g,'\n')`), the follower query, the falsy filter and
emptiness check, the token query, dedup and emptiness check, the access
token acquisition, and the concurrent fan-out. -/
def notifyFollowersNewRecipe (w : World) (input : NotifyInput)
    (cache : Option CachedAccessToken) : NotifyResult :=
  if !w.adminSupabaseConfigured then
    { outcome := Except.ok (), cache := cache,
      events := [Event.logWarn supabaseWarnMsg] }
  else if isFalsy w.firebaseProjectId || isFalsy w.firebaseClientEmail
      || isFalsy (w.firebasePrivateKeyRaw.map replaceEscapedNewlines) then
    { outcome := Except.ok (), cache := cache,
      events := [Event.logWarn firebaseWarnMsg] }
  else if w.followerResp.error then
    { outcome := Except.ok (), cache := cache,
      events := [Event.queryFollowers input.authorId,
                 Event.logError "Failed to load followers"] }
  else
    match followerIdsOf w with
    | none =>
        { outcome := Except.ok (), cache := cache,
          events := [Event.queryFollowers input.authorId] }
    | some followerIds =>
      if followerIds.isEmpty then
        { outcome := Except.ok (), cache := cache,
          events := [Event.queryFollowers input.authorId] }
      else if w.tokenResp.error then
        { outcome := Except.ok (), cache := cache,
          events := [Event.queryFollowers input.authorId,
                     Event.queryTokens followerIds,
                     Event.logError "Failed to load follower push tokens"] }
      else if (resolvedTokens w).isEmpty then
        { outcome := Except.ok (), cache := cache,
          events := [Event.queryFollowers input.authorId,
                     Event.queryTokens followerIds] }
      else
        afterTokenStep
          [Event.queryFollowers input.authorId, Event.queryTokens followerIds]
          w.sendOutcomes (resolvedTokens w) (buildPushMessage input)
          (getGoogleAccessToken w.nowMs cache w.signResult w.exchange)

/-! Concrete scenarios used by counterexamples and witnesses.  `inputEx`
and `wEx` transcribe the end-to-end scenario of the spec: author Ana
(`A1`) publishes recipe Tarta (`R9`); followers `U1`, `U2`; the active
device-token query returns `T1`, `T2` for `U1` and the shared `T1` for
`U2` (the inactive `T3` is filtered out by the query itself). -/

/-- The end-to-end scenario input: Ana publishes Tarta. -/
def inputEx : NotifyInput :=
  { authorId := "A1", authorName := "Ana",
    recipeId := "R9", recipeTitle := "Tarta" }

/-- The end-to-end scenario world: full configuration, two followers,
token rows `[T1, T2, T1]`, a succeeding signing step and token exchange,
and all sends succeeding. -/
def wEx : World :=
  { adminSupabaseConfigured := true,
    firebaseProjectId := some "demo-project",
    firebaseClientEmail := some "svc@demo.example",
    firebasePrivateKeyRaw := some "PEMKEY",
    followerResp := { data := some [{ follower_id := some "U1" },
                                    { follower_id := some "U2" }],
                      error := false },
    tokenResp := { data := some [{ device_token := some "T1" },
                                 { device_token := some "T2" },
                                 { device_token := some "T1" }],
                   error := false },
    nowMs := 1700000000000,
    signResult := Except.ok "signed-assertion",
    exchange := TokenExchangeOutcome.success (some "ya29.token") (some 3600),
    sendOutcomes := fun _ => SendOutcome.ok }

/-- `wEx` with a malformed private key: the signing step throws. -/
def wSignFail : World :=
  { wEx with signResult := Except.error () }

/-- `wEx` where the send to `T1` fails with a non-ok HTTP status while the
send to `T2` succeeds. -/
def wOneSendFails : World :=
  { wEx with sendOutcomes := fun t => if t = "T1" then SendOutcome.httpError
                                      else SendOutcome.ok }

/-- `wEx` with an author that has zero followers. -/
def wNoFollowers : World :=
  { wEx with followerResp := { data := some [], error := false } }

/-- `wEx` with followers but zero active device tokens. -/
def wNoTokens : World :=
  { wEx with tokenResp := { data := some [], error := false } }

/-- `wEx` with `FIREBASE_PROJECT_ID` unset. -/
def wNoProjectId : World :=
  { wEx with firebaseProjectId := none }

/-- Does this event record an FCM send attempt to device token `t`? -/
def isSendTo (t : String) : Event → Bool
  | Event.fcmSend t2 _ => t2 == t
  | _ => false

/-- Number of FCM send attempts to device token `t` in a trace. -/
def sendCountTo (t : String) (es : List Event) : Nat :=
  (es.filter (isSendTo t)).length

/-- Does this event record any FCM send attempt? -/
def isSendEvent : Event → Bool
  | Event.fcmSend _ _ => true
  | _ => false

/-- Does this event record the device-token store query? -/
def isTokenStoreQuery : Event → Bool
  | Event.queryTokens _ => true
  | _ => false

/-- Does this event record a call to the OAuth token endpoint? -/
def isTokenEndpointEvent : Event → Bool
  | Event.tokenEndpointCall => true
  | _ => false

/-- The failing token-exchange outcomes: transport error / malformed body,
non-ok HTTP status, or an ok response missing `access_token`. -/
def exchangeFailed : TokenExchangeOutcome → Bool
  | TokenExchangeOutcome.transportError => true
  | TokenExchangeOutcome.httpError => true
  | TokenExchangeOutcome.success a _ => a.isNone

/-! Helper lemmas shared by several claim theorems. -/

/-- The token-acquisition step never produces an FCM send event. -/
theorem getGoogleAccessToken_no_send (nowMs : Int)
    (cache : Option CachedAccessToken) (sr : Except Unit String)
    (ex : TokenExchangeOutcome) (t : String) (m : PushMessage) :
    Event.fcmSend t m ∉ (getGoogleAccessToken nowMs cache sr ex).events := by
  rcases cache with _ | c <;>
    rcases sr with e | s <;>
    rcases ex with _ | _ | ⟨_ | a, i⟩ <;>
    simp [getGoogleAccessToken, refreshAccessToken] <;>
    split <;> simp

/-- When the cache-hit test fails, `getGoogleAccessToken` is the refresh
path. -/
theorem getGoogleAccessToken_miss (nowMs : Int)
    (cache : Option CachedAccessToken) (sr : Except Unit String)
    (ex : TokenExchangeOutcome) (h : isCacheHit nowMs cache = false) :
    getGoogleAccessToken nowMs cache sr ex =
      refreshAccessToken nowMs cache sr ex := by
  rcases cache with _ | c
  · rfl
  · simp only [isCacheHit, decide_eq_false_iff_not] at h
    simp [getGoogleAccessToken, if_neg h]

/-- `getGoogleAccessToken` can only throw when the signing step throws,
and in that case the cache slot is untouched. -/
theorem getGoogleAccessToken_outcome_error (nowMs : Int)
    (cache : Option CachedAccessToken) (sr : Except Unit String)
    (ex : TokenExchangeOutcome) (e : Unit)
    (h : (getGoogleAccessToken nowMs cache sr ex).outcome = Except.error e) :
    sr = Except.error () ∧
    (getGoogleAccessToken nowMs cache sr ex).cache = cache := by
  have hr : ∀ cc, (refreshAccessToken nowMs cc sr ex).outcome = Except.error e →
      sr = Except.error () ∧ (refreshAccessToken nowMs cc sr ex).cache = cc := by
    intro cc hh
    rcases sr with e' | s
    · exact ⟨rfl, rfl⟩
    · rcases ex with _ | _ | ⟨_ | a, i⟩ <;> simp [refreshAccessToken] at hh
  rcases cache with _ | c
  · exact hr none h
  · by_cases hc : c.expiresAtMs - 60000 > nowMs
    · have hhit : getGoogleAccessToken nowMs (some c) sr ex =
          { outcome := Except.ok (some c.token), cache := some c, events := [] } := by
        simp [getGoogleAccessToken, if_pos hc]
      rw [hhit] at h
      simp at h
    · have hmiss : getGoogleAccessToken nowMs (some c) sr ex =
          refreshAccessToken nowMs (some c) sr ex := by
        simp [getGoogleAccessToken, if_neg hc]
      rw [hmiss] at h ⊢
      exact hr (some c) h

/-- `sendFcmV1` returns normally for every outcome of the send. -/
theorem sendFcmV1_outcome_ok (o : SendOutcome) (t : String)
    (m : PushMessage) : (sendFcmV1 o t m).outcome = Except.ok () := by
  cases o <;> rfl

/-- The send events of one `sendFcmV1` call are exactly the attempt on its
own token with its own message. -/
theorem mem_sendFcmV1_events (o : SendOutcome) (t t2 : String)
    (m m2 : PushMessage) :
    Event.fcmSend t m ∈ (sendFcmV1 o t2 m2).events ↔ t = t2 ∧ m = m2 := by
  cases o <;> simp [sendFcmV1]

/-- Send events of the fan-out: one attempt per token of the list, always
with the same message. -/
theorem mem_dispatchAll (f : String → SendOutcome) (tokens : List String)
    (msg : PushMessage) (t : String) (m : PushMessage) :
    Event.fcmSend t m ∈ dispatchAll f tokens msg ↔ t ∈ tokens ∧ m = msg := by
  simp only [dispatchAll, List.mem_flatMap]
  constructor
  · rintro ⟨a, ha, hm⟩
    rcases (mem_sendFcmV1_events (f a) t a m msg).1 hm with ⟨h1, h2⟩
    subst h1; subst h2
    exact ⟨ha, rfl⟩
  · rintro ⟨ht, hm⟩
    exact ⟨t, ht, (mem_sendFcmV1_events (f t) t t m msg).2 ⟨rfl, hm⟩⟩

/-- The fold underlying `jsSetDedup` preserves freedom from duplicates. -/
theorem jsSetDedup_foldl_nodup (l acc : List String) (h : acc.Nodup) :
    (l.foldl (fun acc t => if acc.contains t then acc else acc ++ [t]) acc).Nodup := by
  induction l generalizing acc with
  | nil => exact h
  | cons x rest ih =>
    simp only [List.foldl_cons]
    apply ih
    by_cases hx : x ∈ acc
    · simp [hx, h]
    · simp [hx, List.nodup_append, h]

/-- `Array.from(new Set(xs))` yields a duplicate-free list. -/
theorem jsSetDedup_nodup (l : List String) : (jsSetDedup l).Nodup :=
  jsSetDedup_foldl_nodup l [] List.nodup_nil

/-- Send counting distributes over trace concatenation. -/
theorem sendCountTo_append (t : String) (a b : List Event) :
    sendCountTo t (a ++ b) = sendCountTo t a + sendCountTo t b := by
  simp [sendCountTo, List.filter_append]

/-- One `sendFcmV1` call contributes exactly one attempt to its own token
and none to any other token, whatever its outcome. -/
theorem sendCountTo_sendFcmV1 (t : String) (o : SendOutcome) (t2 : String)
    (m : PushMessage) :
    sendCountTo t (sendFcmV1 o t2 m).events = if t2 = t then 1 else 0 := by
  cases o <;> by_cases h : t2 = t <;>
    simp [sendFcmV1, sendCountTo, isSendTo, List.filter_cons, h]

/-- Over a duplicate-free token list the fan-out sends at most once per
token: exactly once to each listed token, never to any other. -/
theorem sendCountTo_dispatchAll (f : String → SendOutcome) (t : String)
    (tokens : List String) (msg : PushMessage) (h : tokens.Nodup) :
    sendCountTo t (dispatchAll f tokens msg) = if t ∈ tokens then 1 else 0 := by
  induction tokens with
  | nil => simp [dispatchAll, sendCountTo]
  | cons x rest ih =>
    rcases List.nodup_cons.1 h with ⟨hx, hrest⟩
    simp only [dispatchAll, List.flatMap_cons]
    rw [sendCountTo_append]
    have hd : sendCountTo t (dispatchAll f rest msg) = if t ∈ rest then 1 else 0 :=
      ih hrest
    simp only [dispatchAll] at hd
    rw [sendCountTo_sendFcmV1, hd]
    by_cases hxt : x = t
    · subst hxt
      simp [hx]
    · have hne : ¬t = x := fun hh => hxt hh.symm
      by_cases htr : t ∈ rest <;> simp [hxt, htr, List.mem_cons, hne]

/-- A trace without send events counts zero sends to every token. -/
theorem sendCountTo_eq_zero (t : String) (es : List Event)
    (h : ∀ t2 m, Event.fcmSend t2 m ∉ es) : sendCountTo t es = 0 := by
  have : es.filter (isSendTo t) = [] := by
    rw [List.filter_eq_nil_iff]
    intro a ha
    cases a with
    | fcmSend t2 m => exact absurd ha (h t2 m)
    | logWarn s => simp [isSendTo]
    | logError s => simp [isSendTo]
    | queryFollowers s => simp [isSendTo]
    | queryTokens l => simp [isSendTo]
    | tokenEndpointCall => simp [isSendTo]
  simp [sendCountTo, this]

/-- Shape of a `notifyFollowersNewRecipe` trace: a send-free prefix,
optionally followed by the fan-out over the resolved deduplicated tokens
with the per-round message. -/
theorem notify_events_split (w : World) (input : NotifyInput)
    (cache : Option CachedAccessToken) :
    ∃ pre : List Event,
      (∀ t m, Event.fcmSend t m ∉ pre) ∧
      ((notifyFollowersNewRecipe w input cache).events = pre ∨
       (notifyFollowersNewRecipe w input cache).events =
         pre ++ dispatchAll w.sendOutcomes (resolvedTokens w)
           (buildPushMessage input)) := by
  unfold notifyFollowersNewRecipe
  split
  · exact ⟨[Event.logWarn supabaseWarnMsg], by simp, Or.inl rfl⟩
  split
  · exact ⟨[Event.logWarn firebaseWarnMsg], by simp, Or.inl rfl⟩
  split
  · exact ⟨[Event.queryFollowers input.authorId,
            Event.logError "Failed to load followers"], by simp, Or.inl rfl⟩
  split
  · exact ⟨[Event.queryFollowers input.authorId], by simp, Or.inl rfl⟩
  rename_i followerIds _
  split
  · exact ⟨[Event.queryFollowers input.authorId], by simp, Or.inl rfl⟩
  split
  · exact ⟨[Event.queryFollowers input.authorId,
            Event.queryTokens followerIds,
            Event.logError "Failed to load follower push tokens"],
      by simp, Or.inl rfl⟩
  split
  · exact ⟨[Event.queryFollowers input.authorId,
            Event.queryTokens followerIds], by simp, Or.inl rfl⟩
  unfold afterTokenStep
  split
  · refine ⟨_, ?_, Or.inl rfl⟩
    intro t m hmem
    rcases List.mem_append.1 hmem with h1 | h2
    · simp at h1
    · exact getGoogleAccessToken_no_send _ _ _ _ _ _ h2
  · refine ⟨_, ?_, Or.inl rfl⟩
    intro t m hmem
    rcases List.mem_append.1 hmem with h1 | h2
    · simp at h1
    · exact getGoogleAccessToken_no_send _ _ _ _ _ _ h2
  · refine ⟨_, ?_, Or.inr rfl⟩
    intro t m hmem
    rcases List.mem_append.1 hmem with h1 | h2
    · simp at h1
    · exact getGoogleAccessToken_no_send _ _ _ _ _ _ h2

/-- The deduplicated token list of one round is duplicate free. -/
theorem resolvedTokens_nodup (w : World) : (resolvedTokens w).Nodup :=
  jsSetDedup_nodup _

/-! Claim theorems. -/

/-- Claim C3: when a cached access token exists and its expiry minus 60
seconds is strictly later than the current time, `getGoogleAccessToken`
returns the cached token string, issues no token-endpoint call (empty
trace) and leaves the cache unchanged — whatever the signing step and the
exchange oracle would have done; consequently the returned token is more
than 60 seconds away from its recorded expiry. -/
theorem cacheHitServesCachedToken (nowMs : Int) (c : CachedAccessToken)
    (sr : Except Unit String) (ex : TokenExchangeOutcome)
    (h : c.expiresAtMs - 60000 > nowMs) :
    getGoogleAccessToken nowMs (some c) sr ex =
      { outcome := Except.ok (some c.token), cache := some c, events := [] } ∧
    nowMs + 60000 < c.expiresAtMs := by
  refine ⟨?_, by omega⟩
  simp [getGoogleAccessToken, h]

/-- Witness for C3 at a concrete cache state and call time. -/
theorem cacheHitServesCachedToken_witness :
    getGoogleAccessToken 0 (some { token := "cached", expiresAtMs := 1000000 })
        (Except.ok "sig") TokenExchangeOutcome.httpError =
      { outcome := Except.ok (some "cached"),
        cache := some { token := "cached", expiresAtMs := 1000000 },
        events := [] } ∧
    (0 : Int) + 60000 < 1000000 :=
  cacheHitServesCachedToken 0 { token := "cached", expiresAtMs := 1000000 }
    (Except.ok "sig") TokenExchangeOutcome.httpError (by decide)

/-- Claim C4: on a cache miss with a successful exchange carrying
`access_token`, exactly one token-endpoint call is issued, the single-slot
cache is replaced by the new token with absolute expiry `now` plus the
response lifetime (default 3600 seconds when `expires_in` is absent), and
that token string is returned. -/
theorem cacheMissSuccessCachesAndReturns (nowMs : Int)
    (cache : Option CachedAccessToken) (s tok : String) (ei : Option Int)
    (hmiss : isCacheHit nowMs cache = false) :
    getGoogleAccessToken nowMs cache (Except.ok s)
        (TokenExchangeOutcome.success (some tok) ei) =
      { outcome := Except.ok (some tok),
        cache := some { token := tok,
                        expiresAtMs := nowMs + (ei.getD 3600) * 1000 },
        events := [Event.tokenEndpointCall] } := by
  rw [getGoogleAccessToken_miss _ _ _ _ hmiss]
  rfl

/-- Witness for C4 on an empty cache with `expires_in` absent, exercising
the 3600-second default. -/
theorem cacheMissSuccessCachesAndReturns_witness :
    getGoogleAccessToken 500 none (Except.ok "sig")
        (TokenExchangeOutcome.success (some "fresh") none) =
      { outcome := Except.ok (some "fresh"),
        cache := some { token := "fresh",
                        expiresAtMs := 500 + ((none : Option Int).getD 3600) * 1000 },
        events := [Event.tokenEndpointCall] } :=
  cacheMissSuccessCachesAndReturns 500 none "sig" "fresh" none (by decide)

/-- Claim C5: on any failed token exchange (transport error or malformed
body, non-ok HTTP status, or missing `access_token`) `getGoogleAccessToken`
returns null and the cache slot is exactly what it was before the call. -/
theorem exchangeFailureReturnsNullKeepsCache (nowMs : Int)
    (cache : Option CachedAccessToken) (s : String) (ex : TokenExchangeOutcome)
    (hmiss : isCacheHit nowMs cache = false) (hfail : exchangeFailed ex = true) :
    (getGoogleAccessToken nowMs cache (Except.ok s) ex).outcome =
      Except.ok none ∧
    (getGoogleAccessToken nowMs cache (Except.ok s) ex).cache = cache := by
  rw [getGoogleAccessToken_miss _ _ _ _ hmiss]
  rcases ex with _ | _ | ⟨a, i⟩
  · exact ⟨rfl, rfl⟩
  · exact ⟨rfl, rfl⟩
  · rcases a with _ | tok
    · exact ⟨rfl, rfl⟩
    · simp [exchangeFailed] at hfail

/-- Witness for C5: a non-ok HTTP exchange with a stale cached entry
returns null and keeps the stale entry untouched. -/
theorem exchangeFailureReturnsNullKeepsCache_witness :
    (getGoogleAccessToken 7 (some { token := "old", expiresAtMs := 10 })
        (Except.ok "sig") TokenExchangeOutcome.httpError).outcome =
      Except.ok none ∧
    (getGoogleAccessToken 7 (some { token := "old", expiresAtMs := 10 })
        (Except.ok "sig") TokenExchangeOutcome.httpError).cache =
      some { token := "old", expiresAtMs := 10 } :=
  exchangeFailureReturnsNullKeepsCache 7 (some { token := "old", expiresAtMs := 10 })
    "sig" TokenExchangeOutcome.httpError (by decide) (by decide)

/-- Claim C10: a successful refresh caches and returns the fresh token for
any `expires_in` whatsoever — no minimum-lifetime check is applied on the
refresh path (the 60-second guard applies only to cache hits). -/
theorem freshTokenHasNoMinimumLifetime (nowMs : Int)
    (cache : Option CachedAccessToken) (s tok : String) (e : Int)
    (hmiss : isCacheHit nowMs cache = false) :
    (getGoogleAccessToken nowMs cache (Except.ok s)
        (TokenExchangeOutcome.success (some tok) (some e))).outcome =
      Except.ok (some tok) ∧
    (getGoogleAccessToken nowMs cache (Except.ok s)
        (TokenExchangeOutcome.success (some tok) (some e))).cache =
      some { token := tok, expiresAtMs := nowMs + e * 1000 } := by
  rw [getGoogleAccessToken_miss _ _ _ _ hmiss]
  exact ⟨rfl, rfl⟩

/-- Witness for C10 with `expires_in = 0`: the already-expired fresh token
is still cached and returned for the current round. -/
theorem freshTokenHasNoMinimumLifetime_witness :
    (getGoogleAccessToken 1000 none (Except.ok "sig")
        (TokenExchangeOutcome.success (some "shortlived") (some 0))).outcome =
      Except.ok (some "shortlived") ∧
    (getGoogleAccessToken 1000 none (Except.ok "sig")
        (TokenExchangeOutcome.success (some "shortlived") (some 0))).cache =
      some { token := "shortlived", expiresAtMs := 1000 + 0 * 1000 } :=
  freshTokenHasNoMinimumLifetime 1000 none "sig" "shortlived" 0 (by decide)

/-- Outcome analysis of one round: either the call returns normally, or it
propagates an exception, which happens only when the signing step threw,
and then the cache slot is untouched. -/
theorem notify_outcome_cases (w : World) (input : NotifyInput)
    (cache : Option CachedAccessToken) :
    (notifyFollowersNewRecipe w input cache).outcome = Except.ok () ∨
    ((notifyFollowersNewRecipe w input cache).outcome = Except.error () ∧
     w.signResult = Except.error () ∧
     (notifyFollowersNewRecipe w input cache).cache = cache) := by
  unfold notifyFollowersNewRecipe
  split
  · exact Or.inl rfl
  split
  · exact Or.inl rfl
  split
  · exact Or.inl rfl
  split
  · exact Or.inl rfl
  split
  · exact Or.inl rfl
  split
  · exact Or.inl rfl
  split
  · exact Or.inl rfl
  unfold afterTokenStep
  split
  · next e heq =>
      have hh := getGoogleAccessToken_outcome_error _ _ _ _ e heq
      exact Or.inr ⟨rfl, hh.1, hh.2⟩
  · exact Or.inl rfl
  · exact Or.inl rfl

/-- Claim C1 (amended): every dispatched push message carries the title
`"Nueva receta de {authorName}"` (the source string is Spanish, not
"New recipe from"), body equal to the recipe title, and a data payload of
exactly the three string fields type/recipe_id/author_id. -/
theorem dispatchedMessageShape (w : World) (input : NotifyInput)
    (cache : Option CachedAccessToken) (t : String) (m : PushMessage)
    (h : Event.fcmSend t m ∈ (notifyFollowersNewRecipe w input cache).events) :
    m.title = "Nueva receta de " ++ input.authorName ∧
    m.body = input.recipeTitle ∧
    m.data = [("type", "new_recipe"), ("recipe_id", input.recipeId),
              ("author_id", input.authorId)] := by
  rcases notify_events_split w input cache with ⟨pre, hpre, hsplit | hsplit⟩
  · rw [hsplit] at h
    exact absurd h (hpre t m)
  · rw [hsplit] at h
    rcases List.mem_append.1 h with h1 | h2
    · exact absurd h1 (hpre t m)
    · rcases (mem_dispatchAll _ _ _ _ _).1 h2 with ⟨_, rfl⟩
      exact ⟨rfl, rfl, rfl⟩

/-- Witness for C1 (amended) at the end-to-end scenario. -/
theorem dispatchedMessageShape_witness :
    (buildPushMessage inputEx).title = "Nueva receta de " ++ inputEx.authorName ∧
    (buildPushMessage inputEx).body = inputEx.recipeTitle ∧
    (buildPushMessage inputEx).data =
      [("type", "new_recipe"), ("recipe_id", inputEx.recipeId),
       ("author_id", inputEx.authorId)] :=
  dispatchedMessageShape wEx inputEx none "T1" (buildPushMessage inputEx)
    (by decide)

/-- Counterexample for C1 as stated: in the end-to-end scenario the push
dispatched to `T1` carries the Spanish title "Nueva receta de Ana", which
is not the claimed "New recipe from Ana". -/
theorem dispatchedTitleCounterexample :
    Event.fcmSend "T1" (buildPushMessage inputEx) ∈
      (notifyFollowersNewRecipe wEx inputEx none).events ∧
    (buildPushMessage inputEx).title = "Nueva receta de Ana" ∧
    (buildPushMessage inputEx).title ≠ "New recipe from Ana" := by
  decide

/-- Claim C2 (amended): a `notifyFollowersNewRecipe` call propagates an
exception to its caller only when the service-account signing step threw
(malformed private key); the cache is untouched in that case, but the
failure is not logged and the round aborts by the exception itself.  Every
other failure path returns normally. -/
theorem notifyRaisesOnlyOnSigningFailure (w : World) (input : NotifyInput)
    (cache : Option CachedAccessToken)
    (h : (notifyFollowersNewRecipe w input cache).outcome = Except.error ()) :
    w.signResult = Except.error () ∧
    (notifyFollowersNewRecipe w input cache).cache = cache := by
  rcases notify_outcome_cases w input cache with hok | ⟨_, hs, hc⟩
  · rw [hok] at h
    simp at h
  · exact ⟨hs, hc⟩

/-- Witness for C2 (amended) at the signing-failure scenario. -/
theorem notifyRaisesOnlyOnSigningFailure_witness :
    wSignFail.signResult = Except.error () ∧
    (notifyFollowersNewRecipe wSignFail inputEx none).cache = none :=
  notifyRaisesOnlyOnSigningFailure wSignFail inputEx none (by decide)

/-- Counterexample for C2 as stated: with a malformed private key the
signing throw escapes `notifyFollowersNewRecipe` (the round aborts by an
exception reaching the caller), and the trace records no log of the
failure — only the two store queries that preceded it. -/
theorem signingFailurePropagatesToCaller :
    (notifyFollowersNewRecipe wSignFail inputEx none).outcome =
      Except.error () ∧
    (notifyFollowersNewRecipe wSignFail inputEx none).events =
      [Event.queryFollowers "A1", Event.queryTokens ["U1", "U2"]] ∧
    (notifyFollowersNewRecipe wSignFail inputEx none).cache = none := by
  decide

/-- Claim C6: `sendFcmV1` returns normally for every outcome of one send,
and whenever any send was attempted in a round, every resolved token
receives its own attempt with the round's message — one recipient's
failure never suppresses another recipient's send. -/
theorem perRecipientIsolation (w : World) (input : NotifyInput)
    (cache : Option CachedAccessToken) (t0 t : String) (m0 : PushMessage)
    (h1 : Event.fcmSend t0 m0 ∈ (notifyFollowersNewRecipe w input cache).events)
    (h2 : t ∈ resolvedTokens w) :
    Event.fcmSend t (buildPushMessage input) ∈
      (notifyFollowersNewRecipe w input cache).events ∧
    (sendFcmV1 (w.sendOutcomes t) t (buildPushMessage input)).outcome =
      Except.ok () := by
  refine ⟨?_, sendFcmV1_outcome_ok _ _ _⟩
  rcases notify_events_split w input cache with ⟨pre, hpre, hsplit | hsplit⟩
  · rw [hsplit] at h1
    exact absurd h1 (hpre t0 m0)
  · rw [hsplit]
    exact List.mem_append.2 (Or.inr ((mem_dispatchAll _ _ _ _ _).2 ⟨h2, rfl⟩))

/-- Witness for C6: with the send to `T1` failing on a non-ok status, the
send to `T2` is still attempted and `sendFcmV1` returns normally. -/
theorem perRecipientIsolation_witness :
    Event.fcmSend "T2" (buildPushMessage inputEx) ∈
      (notifyFollowersNewRecipe wOneSendFails inputEx none).events ∧
    (sendFcmV1 (wOneSendFails.sendOutcomes "T2") "T2"
        (buildPushMessage inputEx)).outcome = Except.ok () :=
  perRecipientIsolation wOneSendFails inputEx none "T1" "T2"
    (buildPushMessage inputEx) (by decide) (by decide)

/-- Claim C7: within one round at most one push send is issued per
distinct token string, and when dispatch happened at all, each resolved
(deduplicated) token gets exactly one send. -/
theorem atMostOneSendPerToken (w : World) (input : NotifyInput)
    (cache : Option CachedAccessToken) (t t0 : String) (m0 : PushMessage) :
    sendCountTo t (notifyFollowersNewRecipe w input cache).events ≤ 1 ∧
    (Event.fcmSend t0 m0 ∈ (notifyFollowersNewRecipe w input cache).events →
     t ∈ resolvedTokens w →
     sendCountTo t (notifyFollowersNewRecipe w input cache).events = 1) := by
  rcases notify_events_split w input cache with ⟨pre, hpre, hsplit | hsplit⟩
  · rw [hsplit]
    constructor
    · rw [sendCountTo_eq_zero t pre hpre]
      omega
    · intro h1 _
      exact absurd h1 (hpre t0 m0)
  · rw [hsplit, sendCountTo_append, sendCountTo_eq_zero t pre hpre,
        sendCountTo_dispatchAll _ _ _ _ (resolvedTokens_nodup w)]
    constructor
    · by_cases ht : t ∈ resolvedTokens w <;> simp [ht]
    · intro _ ht
      simp [ht]

/-- Witness for C7: in the end-to-end scenario the token rows contain `T1`
twice, yet exactly one send goes to `T1`. -/
theorem atMostOneSendPerToken_witness :
    sendCountTo "T1" (notifyFollowersNewRecipe wEx inputEx none).events ≤ 1 ∧
    sendCountTo "T1" (notifyFollowersNewRecipe wEx inputEx none).events = 1 :=
  ⟨(atMostOneSendPerToken wEx inputEx none "T1" "T1" (buildPushMessage inputEx)).1,
   (atMostOneSendPerToken wEx inputEx none "T1" "T1" (buildPushMessage inputEx)).2
     (by decide) (by decide)⟩

/-- Claim C8: an empty follower result short-circuits the round before the
device-token store query, the token endpoint and any send; zero resolved
device tokens short-circuit it before the token endpoint and any send. -/
theorem emptyAudienceShortCircuits (w : World) (input : NotifyInput)
    (cache : Option CachedAccessToken) :
    (w.followerResp.data = some [] →
      ((notifyFollowersNewRecipe w input cache).events.all
        (fun e => !(isTokenStoreQuery e || isTokenEndpointEvent e
                    || isSendEvent e))) = true) ∧
    (resolvedTokens w = [] →
      ((notifyFollowersNewRecipe w input cache).events.all
        (fun e => !(isTokenEndpointEvent e || isSendEvent e))) = true) := by
  constructor
  · intro hdata
    unfold notifyFollowersNewRecipe
    split
    · rfl
    split
    · rfl
    split
    · rfl
    split
    · rfl
    rename_i followerIds heq
    split
    · rfl
    rename_i hne
    exfalso
    apply hne
    have h0 : followerIdsOf w = some [] := by
      simp [followerIdsOf, hdata]
    rw [heq] at h0
    rw [Option.some.inj h0]
    rfl
  · intro htok
    unfold notifyFollowersNewRecipe
    split
    · rfl
    split
    · rfl
    split
    · rfl
    split
    · rfl
    split
    · rfl
    split
    · rfl
    split
    · rfl
    rename_i hne
    exact absurd (by rw [htok]; rfl) hne

/-- Witness for C8: an author with zero followers triggers neither the
device-token query nor any network call; followers with zero active
device tokens trigger neither the token endpoint nor any send. -/
theorem emptyAudienceShortCircuits_witness :
    ((notifyFollowersNewRecipe wNoFollowers inputEx none).events.all
      (fun e => !(isTokenStoreQuery e || isTokenEndpointEvent e
                  || isSendEvent e))) = true ∧
    ((notifyFollowersNewRecipe wNoTokens inputEx none).events.all
      (fun e => !(isTokenEndpointEvent e || isSendEvent e))) = true :=
  ⟨(emptyAudienceShortCircuits wNoFollowers inputEx none).1 (by decide),
   (emptyAudienceShortCircuits wNoTokens inputEx none).2 (by decide)⟩

/-- Claim C9: when the privileged store credential is absent, or the
project id, client email or private key is unset, the round emits exactly
one warning and nothing else — zero store queries and zero network calls —
returning normally with the cache untouched. -/
theorem missingConfigSkipsEverything (w : World) (input : NotifyInput)
    (cache : Option CachedAccessToken)
    (h : w.adminSupabaseConfigured = false ∨ w.firebaseProjectId = none ∨
         w.firebaseClientEmail = none ∨ w.firebasePrivateKeyRaw = none) :
    ((notifyFollowersNewRecipe w input cache).events =
       [Event.logWarn supabaseWarnMsg] ∨
     (notifyFollowersNewRecipe w input cache).events =
       [Event.logWarn firebaseWarnMsg]) ∧
    (notifyFollowersNewRecipe w input cache).outcome = Except.ok () ∧
    (notifyFollowersNewRecipe w input cache).cache = cache := by
  unfold notifyFollowersNewRecipe
  split
  · exact ⟨Or.inl rfl, rfl, rfl⟩
  rename_i hadm
  split
  · exact ⟨Or.inr rfl, rfl, rfl⟩
  rename_i hcfg
  exfalso
  rcases h with h | h | h | h
  · exact hadm (by simp [h])
  · exact hcfg (by simp [h, isFalsy])
  · exact hcfg (by simp [h, isFalsy])
  · exact hcfg (by simp [h, isFalsy])

/-- Witness for C9 with `FIREBASE_PROJECT_ID` unset. -/
theorem missingConfigSkipsEverything_witness :
    ((notifyFollowersNewRecipe wNoProjectId inputEx none).events =
       [Event.logWarn supabaseWarnMsg] ∨
     (notifyFollowersNewRecipe wNoProjectId inputEx none).events =
       [Event.logWarn firebaseWarnMsg]) ∧
    (notifyFollowersNewRecipe wNoProjectId inputEx none).outcome =
      Except.ok () ∧
    (notifyFollowersNewRecipe wNoProjectId inputEx none).cache = none :=
  missingConfigSkipsEverything wNoProjectId inputEx none (Or.inr (Or.inl rfl))

end RecipesApi
